import Mathlib

/-!
Shallow embedding of the Linux plugin `src/linux/custom_tooltip_flutter_plugin.cc`
of the `custom_tooltip_flutter` repository, and proofs about its method-call
dispatcher.

The dispatcher `custom_tooltip_flutter_plugin_handle_method_call` receives an
`FlMethodCall`, answers `"getPlatformVersion"` via `get_platform_version`
(which calls POSIX `uname` and formats `"Linux %s"` with the `version` field of
`struct utsname`), and answers every other method name with the
not-implemented response.  The environment is modelled by the `utsname` data
the operating system would report together with a flag saying whether the
`uname` query succeeds; the C code zero-initialises the struct and never
checks `uname`'s return value, so on failure all fields stay empty.
-/

/-- POSIX `struct utsname`: the fields filled in by `uname(2)`. -/
structure Utsname where
  sysname : String
  nodename : String
  release : String
  version : String
  machine : String
deriving DecidableEq, Repr

/-- The zero-initialised `struct utsname uname_data = {};` of the C code:
every field is the empty string. -/
def emptyUtsname : Utsname := ⟨"", "", "", "", ""⟩

/-- Flutter platform-channel values (`FlValue`), restricted to the fragment
relevant here: the plugin itself only ever builds a string value
(`fl_value_new_string`), and a call's arguments may be any value or null. -/
inductive FlValue where
  | null : FlValue
  | boolean : Bool → FlValue
  | int : Int → FlValue
  | string : String → FlValue
deriving DecidableEq, Repr

/-- The three kinds of `FlMethodResponse` the Linux embedder API offers:
success with a result value, an error with code/message/details, and
not-implemented. -/
inductive FlMethodResponse where
  | success : FlValue → FlMethodResponse
  | error : String → String → FlValue → FlMethodResponse
  | notImplemented : FlMethodResponse
deriving DecidableEq, Repr

/-- An `FlMethodCall`: a method name and its arguments value. -/
structure FlMethodCall where
  name : String
  arguments : FlValue
deriving DecidableEq, Repr

/-- The result of `uname(&uname_data)` as seen by the caller: on success the
kernel fills the struct with the system's identification `sys`; the code
zero-initialises the struct and does not check the return code, so on failure
the fields remain empty. -/
def uname (ok : Bool) (sys : Utsname) : Utsname :=
  if ok then sys else emptyUtsname

/-- Embedding of `get_platform_version` (custom_tooltip_flutter_plugin.cc,
lines 38-44): format `"Linux %s"` with `uname_data.version` and return a
success response carrying that string. -/
def get_platform_version (ok : Bool) (sys : Utsname) : FlMethodResponse :=
  let uname_data := uname ok sys
  let version := "Linux " ++ uname_data.version
  let result := FlValue.string version
  FlMethodResponse.success result

/-- Embedding of `custom_tooltip_flutter_plugin_handle_method_call`
(custom_tooltip_flutter_plugin.cc, lines 22-36): compare the call's name with
`"getPlatformVersion"` (`strcmp == 0`, i.e. exact string equality) and pick
the response. -/
def custom_tooltip_flutter_plugin_handle_method_call
    (ok : Bool) (sys : Utsname) (method_call : FlMethodCall) : FlMethodResponse :=
  let method := method_call.name
  if method = "getPlatformVersion" then
    get_platform_version ok sys
  else
    FlMethodResponse.notImplemented

/-- The sequence of responses handed to `fl_method_call_respond` while the
handler runs, in order: the C handler computes exactly one response and calls
`fl_method_call_respond` exactly once, at line 35, before returning. -/
def handle_method_call_responses
    (ok : Bool) (sys : Utsname) (method_call : FlMethodCall) : List FlMethodResponse :=
  let response := custom_tooltip_flutter_plugin_handle_method_call ok sys method_call
  [response]

/-- The plugin instance's state: `struct _CustomTooltipFlutterPlugin` holds no
field beyond its GObject parent, so there is nothing mutable to carry. -/
structure PluginState where
deriving DecidableEq, Repr

/-- One dispatch as a state transformer: the handler reads no plugin state and
writes none, so the state component passes through unchanged. -/
def dispatch_step (ok : Bool) (sys : Utsname) (st : PluginState)
    (method_call : FlMethodCall) : FlMethodResponse × PluginState :=
  (custom_tooltip_flutter_plugin_handle_method_call ok sys method_call, st)

/-- Appending anything to `"Linux "` never yields the empty string. -/
lemma linux_append_ne_empty (v : String) : ("Linux " ++ v) ≠ "" := by
  intro h
  have hd : ("Linux " ++ v).data = ("" : String).data := congrArg String.data h
  rw [String.data_append] at hd
  simp at hd

/-- Appending to `"Linux "` is injective in the appended part. -/
lemma linux_append_inj {v w : String} (h : "Linux " ++ v = "Linux " ++ w) : v = w := by
  have hd : "Linux ".data ++ v.data = "Linux ".data ++ w.data := by
    have := congrArg String.data h
    rwa [String.data_append, String.data_append] at this
  have hvw : v.data = w.data := List.append_cancel_left hd
  cases v
  cases w
  exact congrArg String.mk hvw

/-- C1 counterexample: on a host whose `utsname` has distinct `release` and
`version` fields, the dispatcher does not return the OS family followed by
the release string: it formats the `version` field instead. -/
theorem C1_counterexample :
    custom_tooltip_flutter_plugin_handle_method_call true
        ⟨"Linux", "host", "5.15.0-91-generic", "#101-Ubuntu SMP", "x86_64"⟩
        ⟨"getPlatformVersion", FlValue.null⟩
      ≠ FlMethodResponse.success (FlValue.string ("Linux" ++ " " ++ "5.15.0-91-generic")) := by
  decide

/-- C1 (amended): for every method call named `"getPlatformVersion"`, the
dispatcher returns `Success` carrying the literal `"Linux "` followed by the
`version` field reported by `uname` (not the `release` field). -/
theorem C1_dispatch_formats_version (ok : Bool) (sys : Utsname)
    (method_call : FlMethodCall) (h : method_call.name = "getPlatformVersion") :
    custom_tooltip_flutter_plugin_handle_method_call ok sys method_call
      = FlMethodResponse.success (FlValue.string ("Linux " ++ (uname ok sys).version)) := by
  simp [custom_tooltip_flutter_plugin_handle_method_call, get_platform_version, h]

/-- C1 witness: the amended theorem evaluated on a concrete host. -/
theorem C1_witness :
    custom_tooltip_flutter_plugin_handle_method_call true
        ⟨"Linux", "host", "5.15.0-91-generic", "#101-Ubuntu SMP", "x86_64"⟩
        ⟨"getPlatformVersion", FlValue.null⟩
      = FlMethodResponse.success (FlValue.string "Linux #101-Ubuntu SMP") := by
  have h := C1_dispatch_formats_version true
    ⟨"Linux", "host", "5.15.0-91-generic", "#101-Ubuntu SMP", "x86_64"⟩
    ⟨"getPlatformVersion", FlValue.null⟩ rfl
  simpa using h

/-- C2: for every method call whose name differs from the exact string
`"getPlatformVersion"`, the dispatcher returns the not-implemented
response. -/
theorem C2_unknown_name_not_implemented (ok : Bool) (sys : Utsname)
    (method_call : FlMethodCall) (h : method_call.name ≠ "getPlatformVersion") :
    custom_tooltip_flutter_plugin_handle_method_call ok sys method_call
      = FlMethodResponse.notImplemented := by
  simp [custom_tooltip_flutter_plugin_handle_method_call, h]

/-- C2 witness: the differently-cased name `"GetPlatformVersion"` gets the
not-implemented response. -/
theorem C2_witness :
    ("GetPlatformVersion" ≠ "getPlatformVersion")
    ∧ custom_tooltip_flutter_plugin_handle_method_call true emptyUtsname
        ⟨"GetPlatformVersion", FlValue.null⟩
      = FlMethodResponse.notImplemented :=
  ⟨by decide,
   C2_unknown_name_not_implemented true emptyUtsname
     ⟨"GetPlatformVersion", FlValue.null⟩ (by decide)⟩

/-- C3 counterexample: when the `uname` query fails, the struct stays
zero-initialised and the success string is exactly `"Linux "`: the part after
`"Linux "` is empty, so the non-empty-suffix pattern of the claim fails. -/
theorem C3_counterexample :
    ¬ ∃ rest : String, rest ≠ ""
      ∧ custom_tooltip_flutter_plugin_handle_method_call false
          ⟨"Linux", "host", "5.15.0-91-generic", "#101-Ubuntu SMP", "x86_64"⟩
          ⟨"getPlatformVersion", FlValue.null⟩
        = FlMethodResponse.success (FlValue.string ("Linux " ++ rest)) := by
  rintro ⟨rest, hne, heq⟩
  have h0 : custom_tooltip_flutter_plugin_handle_method_call false
      ⟨"Linux", "host", "5.15.0-91-generic", "#101-Ubuntu SMP", "x86_64"⟩
      ⟨"getPlatformVersion", FlValue.null⟩
      = FlMethodResponse.success (FlValue.string ("Linux " ++ "")) := by decide
  rw [h0] at heq
  injection heq with h1
  injection h1 with h2
  exact hne (linux_append_inj h2).symm

/-- C3 (amended): the success string always matches `"Linux "` followed by
the `version` string reported by `uname`; whenever that reported string is
non-empty, the part after `"Linux "` is non-empty. -/
theorem C3_success_matches_linux_pattern (ok : Bool) (sys : Utsname)
    (method_call : FlMethodCall) (h : method_call.name = "getPlatformVersion")
    (hv : (uname ok sys).version ≠ "") :
    ∃ rest : String, rest ≠ ""
      ∧ custom_tooltip_flutter_plugin_handle_method_call ok sys method_call
        = FlMethodResponse.success (FlValue.string ("Linux " ++ rest)) :=
  ⟨(uname ok sys).version, hv, by
    simp [custom_tooltip_flutter_plugin_handle_method_call, get_platform_version, h]⟩

/-- C3 witness: the amended theorem evaluated on a concrete host with a
successful query and a non-empty version string. -/
theorem C3_witness :
    ∃ rest : String, rest ≠ ""
      ∧ custom_tooltip_flutter_plugin_handle_method_call true
          ⟨"Linux", "host", "6.1.0", "#1 SMP Debian", "x86_64"⟩
          ⟨"getPlatformVersion", FlValue.null⟩
        = FlMethodResponse.success (FlValue.string ("Linux " ++ rest)) :=
  C3_success_matches_linux_pattern true
    ⟨"Linux", "host", "6.1.0", "#1 SMP Debian", "x86_64"⟩
    ⟨"getPlatformVersion", FlValue.null⟩ rfl (by decide)

/-- C4: for every method call the handler hands exactly one response to
`fl_method_call_respond`, namely the one the dispatcher computes, before it
returns. -/
theorem C4_exactly_one_response (ok : Bool) (sys : Utsname)
    (method_call : FlMethodCall) :
    handle_method_call_responses ok sys method_call
      = [custom_tooltip_flutter_plugin_handle_method_call ok sys method_call]
    ∧ (handle_method_call_responses ok sys method_call).length = 1 :=
  ⟨rfl, rfl⟩

/-- C5: even when the `uname` query fails, the dispatcher still produces a
response for every call: not-implemented for unknown names, and a
best-effort success string `"Linux "` for `"getPlatformVersion"`. -/
theorem C5_failure_still_responds (sys : Utsname) (method_call : FlMethodCall) :
    custom_tooltip_flutter_plugin_handle_method_call false sys method_call
      = FlMethodResponse.notImplemented
    ∨ custom_tooltip_flutter_plugin_handle_method_call false sys method_call
      = FlMethodResponse.success (FlValue.string "Linux ") := by
  by_cases h : method_call.name = "getPlatformVersion"
  · right
    simp [custom_tooltip_flutter_plugin_handle_method_call, get_platform_version,
          uname, emptyUtsname, h]
  · left
    simp [custom_tooltip_flutter_plugin_handle_method_call, h]

/-- C6: for every method call named `"getPlatformVersion"`, the response is
`Success` carrying a string that is non-empty and starts with the literal
`"Linux "`. -/
theorem C6_success_nonempty_linux (ok : Bool) (sys : Utsname)
    (method_call : FlMethodCall) (h : method_call.name = "getPlatformVersion") :
    ∃ s : String,
      custom_tooltip_flutter_plugin_handle_method_call ok sys method_call
        = FlMethodResponse.success (FlValue.string s)
      ∧ s ≠ "" ∧ ∃ rest : String, s = "Linux " ++ rest := by
  refine ⟨"Linux " ++ (uname ok sys).version, ?_, ?_, ⟨(uname ok sys).version, rfl⟩⟩
  · simp [custom_tooltip_flutter_plugin_handle_method_call, get_platform_version, h]
  · exact linux_append_ne_empty (uname ok sys).version

/-- C6 witness: the theorem evaluated on a concrete host. -/
theorem C6_witness :
    ∃ s : String,
      custom_tooltip_flutter_plugin_handle_method_call true
          ⟨"Linux", "host", "6.1.0", "#2 SMP", "x86_64"⟩
          ⟨"getPlatformVersion", FlValue.null⟩
        = FlMethodResponse.success (FlValue.string s)
      ∧ s ≠ "" ∧ ∃ rest : String, s = "Linux " ++ rest :=
  C6_success_nonempty_linux true
    ⟨"Linux", "host", "6.1.0", "#2 SMP", "x86_64"⟩
    ⟨"getPlatformVersion", FlValue.null⟩ rfl

/-- C7: the dispatcher is a total function: for every call, whether or not
the OS query succeeds, it returns a single well-formed response (a success
carrying a string, or not-implemented); it never aborts and nothing escapes
beyond the returned response value. -/
theorem C7_total_never_aborts (ok : Bool) (sys : Utsname)
    (method_call : FlMethodCall) :
    (∃ s : String,
      custom_tooltip_flutter_plugin_handle_method_call ok sys method_call
        = FlMethodResponse.success (FlValue.string s))
    ∨ custom_tooltip_flutter_plugin_handle_method_call ok sys method_call
        = FlMethodResponse.notImplemented := by
  by_cases h : method_call.name = "getPlatformVersion"
  · exact Or.inl ⟨"Linux " ++ (uname ok sys).version, by
      simp [custom_tooltip_flutter_plugin_handle_method_call, get_platform_version, h]⟩
  · exact Or.inr (by simp [custom_tooltip_flutter_plugin_handle_method_call, h])

/-- C8: dispatch mutates no state: two dispatches of equal method calls under
the same OS identification produce equal responses, and the first dispatch
leaves the plugin state exactly as it found it, so the second observes
nothing from the first. -/
theorem C8_deterministic_stateless (ok : Bool) (sys : Utsname)
    (st : PluginState) (c1 c2 : FlMethodCall) (h : c1 = c2) :
    (dispatch_step ok sys st c1).1
      = (dispatch_step ok sys (dispatch_step ok sys st c1).2 c2).1
    ∧ (dispatch_step ok sys st c1).2 = st
    ∧ (dispatch_step ok sys (dispatch_step ok sys st c1).2 c2).2 = st := by
  subst h
  exact ⟨rfl, rfl, rfl⟩

/-- C8 witness: the theorem evaluated on a concrete pair of equal calls. -/
theorem C8_witness :
    (dispatch_step true ⟨"Linux", "h", "6.1.0", "#2 SMP", "x86_64"⟩ ⟨⟩
        ⟨"getPlatformVersion", FlValue.null⟩).1
      = (dispatch_step true ⟨"Linux", "h", "6.1.0", "#2 SMP", "x86_64"⟩
          (dispatch_step true ⟨"Linux", "h", "6.1.0", "#2 SMP", "x86_64"⟩ ⟨⟩
            ⟨"getPlatformVersion", FlValue.null⟩).2
          ⟨"getPlatformVersion", FlValue.null⟩).1
    ∧ (dispatch_step true ⟨"Linux", "h", "6.1.0", "#2 SMP", "x86_64"⟩ ⟨⟩
        ⟨"getPlatformVersion", FlValue.null⟩).2 = ⟨⟩
    ∧ (dispatch_step true ⟨"Linux", "h", "6.1.0", "#2 SMP", "x86_64"⟩
          (dispatch_step true ⟨"Linux", "h", "6.1.0", "#2 SMP", "x86_64"⟩ ⟨⟩
            ⟨"getPlatformVersion", FlValue.null⟩).2
          ⟨"getPlatformVersion", FlValue.null⟩).2 = ⟨⟩ :=
  C8_deterministic_stateless true ⟨"Linux", "h", "6.1.0", "#2 SMP", "x86_64"⟩ ⟨⟩
    ⟨"getPlatformVersion", FlValue.null⟩ ⟨"getPlatformVersion", FlValue.null⟩ rfl

/-- C9: the dispatcher never produces the error variant of
`FlMethodResponse`: no call, under any OS state, yields
`error code message details`. -/
theorem C9_never_error_variant (ok : Bool) (sys : Utsname)
    (method_call : FlMethodCall) (code message : String) (details : FlValue) :
    custom_tooltip_flutter_plugin_handle_method_call ok sys method_call
      ≠ FlMethodResponse.error code message details := by
  by_cases h : method_call.name = "getPlatformVersion"
  · simp [custom_tooltip_flutter_plugin_handle_method_call, get_platform_version, h]
  · simp [custom_tooltip_flutter_plugin_handle_method_call, h]

/-- C10: the response depends only on the call's name (and the OS state),
never on the call's arguments: equal names with arbitrary arguments yield
equal responses. -/
theorem C10_response_ignores_arguments (ok : Bool) (sys : Utsname)
    (c1 c2 : FlMethodCall) (h : c1.name = c2.name) :
    custom_tooltip_flutter_plugin_handle_method_call ok sys c1
      = custom_tooltip_flutter_plugin_handle_method_call ok sys c2 := by
  simp only [custom_tooltip_flutter_plugin_handle_method_call, h]

/-- C10 witness: same name, different arguments, equal responses. -/
theorem C10_witness :
    custom_tooltip_flutter_plugin_handle_method_call true
        ⟨"Linux", "h", "6.1.0", "#2 SMP", "x86_64"⟩
        ⟨"getPlatformVersion", FlValue.null⟩
      = custom_tooltip_flutter_plugin_handle_method_call true
          ⟨"Linux", "h", "6.1.0", "#2 SMP", "x86_64"⟩
          ⟨"getPlatformVersion", FlValue.int 42⟩ :=
  C10_response_ignores_arguments true ⟨"Linux", "h", "6.1.0", "#2 SMP", "x86_64"⟩
    ⟨"getPlatformVersion", FlValue.null⟩ ⟨"getPlatformVersion", FlValue.int 42⟩ rfl
